import Mathlib

/-!
# Verification of the real-estate analysis chatbot core

Shallow embedding of `backend/chatbot/utils.py` (class `RealEstateAnalyzer`)
and `backend/chatbot/views.py` (query dispatch and extraction helpers).

Conventions:
* Python strings are Lean `String`s; the Python string methods used by the
  code (`lower`, `strip`, `replace`, `split`, `title`, `isdigit`, `in`)
  are embedded below as `py*` helpers over `List Char`.
* Numeric cell values (`price`, `demand`, `size`) are rationals `ℚ`;
  years are `Int`.
* Fallible Python arithmetic (division whose divisor may be zero, which in
  Python raises `ZeroDivisionError` / produces a non-finite float, never a
  number) is embedded with `Option`: `none` is the failure outcome.
-/

namespace RealEstate

/-! ## Python string primitives -/

/-- Python `str.lower()` (ASCII). -/
def lowerStr (s : String) : String := String.mk (s.toList.map Char.toLower)

def pyStripList (l : List Char) : List Char :=
  ((l.dropWhile Char.isWhitespace).reverse.dropWhile Char.isWhitespace).reverse

/-- Python `str.strip()`: remove leading and trailing whitespace. -/
def pyStrip (s : String) : String := String.mk (pyStripList s.toList)

/-- Contiguous-sublist test on character lists (Python `pat in s`). -/
def containsSub (pat : List Char) : List Char → Bool
  | [] => pat.isEmpty
  | c :: rest => pat.isPrefixOf (c :: rest) || containsSub pat rest

/-- Python `pat in s` (contiguous substring containment). -/
def pySubstr (pat s : String) : Bool := containsSub pat.toList s.toList

/-- Worker for `pyReplace`: replace every non-overlapping occurrence of
`pat`, scanning left to right.  All call sites pass a non-empty literal
pattern, so each step consumes at least one input character; taking
`fuel = length of the input` keeps the recursion structural (hence
kernel-computable) without changing the computed value. -/
def replaceFuel (pat rep : List Char) : Nat → List Char → List Char
  | 0, l => l
  | _ + 1, [] => []
  | fuel + 1, c :: rest =>
    if pat.isPrefixOf (c :: rest) then rep ++ replaceFuel pat rep fuel ((c :: rest).drop pat.length)
    else c :: replaceFuel pat rep fuel rest

/-- Python `s.replace(pat, rep)`: all non-overlapping occurrences. -/
def pyReplace (s pat rep : String) : String :=
  String.mk (replaceFuel pat.toList rep.toList s.toList.length s.toList)

/-- Worker for `pySplitOn` (separator non-empty at all call sites; fuel as
in `replaceFuel`). -/
def splitOnFuel (sep : List Char) : Nat → List Char → List Char → List (List Char)
  | _, [], acc => [acc.reverse]
  | 0, l, acc => [acc.reverse ++ l]
  | fuel + 1, c :: rest, acc =>
    if sep.isPrefixOf (c :: rest) then
      acc.reverse :: splitOnFuel sep fuel ((c :: rest).drop sep.length) []
    else splitOnFuel sep fuel rest (c :: acc)

/-- Python `s.split(sep)` for a non-empty separator. -/
def pySplitOn (s sep : String) : List String :=
  (splitOnFuel sep.toList s.toList.length s.toList []).map String.mk

/-- Worker for `pyWords`. -/
def wordsFrom : List Char → List Char → List String
  | [], acc => if acc.isEmpty then [] else [String.mk acc.reverse]
  | c :: rest, acc =>
    if c.isWhitespace then
      if acc.isEmpty then wordsFrom rest [] else String.mk acc.reverse :: wordsFrom rest []
    else wordsFrom rest (c :: acc)

/-- Python `s.split()` with no argument: split on whitespace runs,
dropping empty pieces. -/
def pyWords (s : String) : List String := wordsFrom s.toList []

/-- Worker for `pyTitle`; the flag records whether the previous character
was alphabetic. -/
def titleFrom : Bool → List Char → List Char
  | _, [] => []
  | prevAlpha, c :: rest =>
    if c.isAlpha then (if prevAlpha then c.toLower else c.toUpper) :: titleFrom true rest
    else c :: titleFrom false rest

/-- Python `s.title()` (ASCII): first letter of each alphabetic run is
uppercased, subsequent letters lowercased. -/
def pyTitle (s : String) : String := String.mk (titleFrom false s.toList)

/-- Python `s.isdigit()` (ASCII): non-empty and all characters digits. -/
def pyIsDigit (s : String) : Bool := !s.toList.isEmpty && s.toList.all Char.isDigit

/-- Division as the Python code performs it: with a zero divisor Python
raises `ZeroDivisionError` (plain numbers) or produces a non-finite float
(numpy scalars); in neither case does a numeric result come back, so the
embedding returns `none` then. -/
def pyDiv (a b : ℚ) : Option ℚ := if b = 0 then none else some (a / b)

/-! ## Data model (`DataRow` of the spec; one row of the analyzer's frame) -/

structure DataRow where
  year : Int
  area : String
  price : ℚ
  demand : ℚ
  size : ℚ
deriving DecidableEq

instance : Inhabited DataRow := ⟨⟨0, "", 0, 0, 0⟩⟩

/-- Comparison key used by every sort in the code (`sort_values('year')`,
`sorted(key=lambda x: x['year'])`). -/
def yearLE (a b : DataRow) : Prop := a.year ≤ b.year

instance : DecidableRel yearLE := fun a b => inferInstanceAs (Decidable (a.year ≤ b.year))
instance : IsTotal DataRow yearLE := ⟨fun a b => Int.le_total a.year b.year⟩
instance : IsTrans DataRow yearLE := ⟨fun _ _ _ h1 h2 => le_trans h1 h2⟩

/-- Sorting ascending by year (`df.sort_values('year')` in utils.py,
`sorted(table_data, key=lambda x: x['year'])` in views.py). -/
def sortByYear (l : List DataRow) : List DataRow := List.insertionSort yearLE l

/-! ## `RealEstateAnalyzer.calculate_price_growth` (utils.py 268-277) -/

/-- utils.py `calculate_price_growth`: fewer than 2 rows returns `0`;
otherwise sort by year and compute `((last - first) / first) * 100`.
The division is not guarded, so a zero first price is a failure (`none`). -/
def calculate_price_growth (data : List DataRow) : Option ℚ :=
  if data.length < 2 then some 0
  else
    let sorted_data := sortByYear data
    let first_price := sorted_data.headI.price
    let last_price := sorted_data.getLastI.price
    (pyDiv (last_price - first_price) first_price).map (fun q => q * 100)

/-! ## `RealEstateAnalyzer.clean_data`, demand normalization (utils.py 113-118) -/

/-- `df['demand'].max()` over a non-empty column (pandas returns NaN on an
empty column; the claims only concern non-empty data, enforced by
hypotheses). -/
def colMax : List ℚ → ℚ
  | [] => 0
  | x :: xs => xs.foldl max x

/-- utils.py `clean_data` lines 113-118: if the maximum demand exceeds 100,
replace the column by `(demand / max_demand) * 100`; otherwise leave it. -/
def normalize_demand (demand : List ℚ) : List ℚ :=
  let max_demand := colMax demand
  if 100 < max_demand then demand.map (fun d => d / max_demand * 100) else demand

/-! ## `RealEstateAnalyzer.create_sample_data` (utils.py 123-141) -/

/-- The fixed fallback dataset of `create_sample_data`, row by row. -/
def sample_data : List DataRow :=
  [⟨2020, "Wakad", 500000, 75, 1000⟩, ⟨2021, "Wakad", 550000, 80, 1100⟩,
   ⟨2022, "Wakad", 600000, 85, 1200⟩, ⟨2023, "Wakad", 650000, 82, 1250⟩,
   ⟨2020, "Aundh", 600000, 70, 1100⟩, ⟨2021, "Aundh", 650000, 75, 1150⟩,
   ⟨2022, "Aundh", 700000, 80, 1200⟩, ⟨2023, "Aundh", 750000, 78, 1250⟩,
   ⟨2020, "Akurdi", 450000, 65, 950⟩, ⟨2021, "Akurdi", 480000, 70, 1000⟩,
   ⟨2022, "Akurdi", 520000, 75, 1050⟩, ⟨2023, "Akurdi", 560000, 77, 1100⟩]

/-! ## Result shapes (`AnalysisResult` of the spec) -/

structure ChartData where
  price_labels : List Int
  price_data : List ℚ
  demand_labels : List Int
  demand_data : List ℚ
deriving DecidableEq

/-- The analysis dict assembled by `analyze_area` / `generate_sample_analysis`.
The free-text `summary` string is not carried here; the quantities
interpolated into it are modelled separately (`calculate_price_growth`,
`price_trend_label`, `demand_level_label`). -/
structure AnalysisResult where
  chart_data : ChartData
  table_data : List DataRow
  area : String
  data_source : String
deriving DecidableEq

/-- utils.py `prepare_chart_data` (279-301): sort by year, then emit the
year/price and year/demand series.  (The `except` fallback at 296-301 is
unreachable in the embedding: the computation is total, and the typed frame
always has a demand column so the hard-coded demand series at 291 is also
never used.) -/
def prepare_chart_data (data : List DataRow) : ChartData :=
  let s := sortByYear data
  { price_labels := s.map (·.year), price_data := s.map (·.price),
    demand_labels := s.map (·.year), demand_data := s.map (·.demand) }

/-- The common dict shape `{summary, chart_data, table_data, area,
data_source}` returned at utils.py 182-188 and 210-216. -/
def mk_result (rows : List DataRow) (area data_source : String) : AnalysisResult :=
  { chart_data := prepare_chart_data rows, table_data := rows,
    area := area, data_source := data_source }

/-! ## `RealEstateAnalyzer.generate_sample_analysis` (utils.py 190-216) -/

/-- The 4-row frame synthesized at utils.py 198-204 for an area absent from
the sample data. -/
def synth_rows (area_name : String) : List DataRow :=
  [⟨2020, area_name, 500000, 75, 1000⟩, ⟨2021, area_name, 550000, 80, 1100⟩,
   ⟨2022, area_name, 600000, 85, 1200⟩, ⟨2023, area_name, 650000, 82, 1250⟩]

/-- utils.py 193-204: filter the sample data on exact area equality; if
empty, synthesize a 4-year frame for the literal requested name. -/
def sample_rows (area_name : String) : List DataRow :=
  let area_sample := sample_data.filter (fun r => r.area == area_name)
  if area_sample.isEmpty then synth_rows area_name else area_sample

/-- utils.py `generate_sample_analysis`: sample-analysis dict, with
`data_source = 'Sample Data'`. -/
def generate_sample_analysis (area_name : String) : AnalysisResult :=
  mk_result (sample_rows area_name) area_name "Sample Data"

/-! ## Area resolution and `RealEstateAnalyzer.analyze_area` (utils.py 143-188) -/

/-- `pd.Series.unique`: distinct values in order of first occurrence. -/
def firstUniquesAux (seen : List String) : List String → List String
  | [] => []
  | x :: xs => if x ∈ seen then firstUniquesAux seen xs
               else x :: firstUniquesAux (x :: seen) xs

/-- The spec's `MatchResult` (section 4.2). -/
inductive MatchResult
  | Found (canonical : String)
  | NotFound
deriving DecidableEq

/-- The resolver embedded in `analyze_area` (utils.py 147-169): the dataset
counts as usable real data only when it has more than 10 rows (and is
non-empty); otherwise, and when no distinct area name contains the
lower-cased fragment as a substring, the resolver reports `NotFound`.
Among the areas containing the fragment, the first in dataset iteration
order wins (`matching_areas[0]`). -/
def resolve_area (df : List DataRow) (area_name : String) : MatchResult :=
  if df.length ≤ 10 ∨ df = [] then .NotFound
  else
    let available_areas := firstUniquesAux [] (df.map (·.area))
    let area_pattern := lowerStr area_name
    match available_areas.filter (fun a => pySubstr area_pattern (lowerStr a)) with
    | [] => .NotFound
    | matched :: _ => .Found matched

/-- utils.py `analyze_area`: resolve the requested name; on `NotFound` fall
back to `generate_sample_analysis`; on a match, take the matched area's rows
(case-insensitive equality with the matched name, in dataset order) and
assemble the real-data result (`data_source = 'Real Excel Data'`). -/
def analyze_area (df : List DataRow) (area_name : String) : AnalysisResult :=
  match resolve_area df area_name with
  | .NotFound => generate_sample_analysis area_name
  | .Found matched =>
    let area_data := df.filter (fun r => lowerStr r.area == lowerStr matched)
    if area_data.isEmpty then generate_sample_analysis area_name
    else mk_result area_data matched "Real Excel Data"

/-! ## `RealEstateAnalyzer.generate_summary` labels (utils.py 238-239) -/

/-- utils.py 238: `"significant growth" if price_growth > 15 else
"moderate growth" if price_growth > 5 else "stable"`. -/
def price_trend_label (price_growth : ℚ) : String :=
  if price_growth > 15 then "significant growth"
  else if price_growth > 5 then "moderate growth"
  else "stable"

/-- utils.py 239: `"high" if avg_demand > 80 else "moderate" if
avg_demand > 60 else "low"`. -/
def demand_level_label (avg_demand : ℚ) : String :=
  if avg_demand > 80 then "high"
  else if avg_demand > 60 then "moderate"
  else "low"

/-! ## views.py `calculate_price_growth` (254-295): detailed breakdown -/

/-- The numbers and trend label interpolated into the detailed
price-growth analysis string of views.py 275-293. -/
structure GrowthDetail where
  first_year : Int
  last_year : Int
  first_price : ℚ
  last_price : ℚ
  total_growth : ℚ
  growth_percentage : ℚ
  annual_growth : ℚ
  annual_growth_percentage : ℚ
  trend : String
deriving DecidableEq

/-- Outcome of views.py `calculate_price_growth`: either the
"Insufficient data" message (fewer than 2 rows) or the detailed analysis. -/
inductive GrowthOutcome
  | insufficient
  | ok (d : GrowthDetail)
deriving DecidableEq

/-- views.py `calculate_price_growth`: wrapped in `Option` because the
division `total_growth / first_price` at line 268 is unguarded (`none` is
the Python failure on a zero first price).  The per-year divisions at
271-273 ARE guarded by `years_diff > 0`. -/
def views_calculate_price_growth (table_data : List DataRow) : Option GrowthOutcome :=
  if table_data.length < 2 then some .insufficient
  else
    let s := sortByYear table_data
    let first_year := s.headI.year
    let last_year := s.getLastI.year
    let first_price := s.headI.price
    let last_price := s.getLastI.price
    let total_growth := last_price - first_price
    match pyDiv total_growth first_price with
    | none => none
    | some q =>
      let growth_percentage := q * 100
      let years_diff := last_year - first_year
      let annual_growth := if 0 < years_diff then total_growth / (years_diff : ℚ) else 0
      let annual_growth_percentage :=
        if 0 < years_diff then growth_percentage / (years_diff : ℚ) else 0
      let trend :=
        if growth_percentage > 20 then "🚀 Strong growth"
        else if growth_percentage > 10 then "📈 Moderate growth"
        else if growth_percentage > 0 then "↗️ Slow growth"
        else "↘️ Price decline"
      some (.ok { first_year, last_year, first_price, last_price, total_growth,
                  growth_percentage, annual_growth, annual_growth_percentage, trend })

/-! ## views.py query extraction (212-252) -/

/-- views.py `extract_single_area_from_query` (212-231).  The first
stop-word list is removed by `str.replace` — substring-wise — while the
second list `stop_words` is filtered token-by-token.  Note the capitalized
fallback at 224-228 re-splits the already-replaced query. -/
def extract_single_area_from_query (query : String) : Option String :=
  let q := pyReplace (pyReplace (pyReplace (pyReplace (pyReplace (pyReplace (pyReplace
    (pyReplace (pyReplace query "analyze" "") "analysis" "") "show" "") "price" "")
    "growth" "") "trend" "") "for" "") "me" "") "give" ""
  let words := pyWords q
  let stop_words := ["of", "the", "a", "an", "last", "years", "year", "demand"]
  let area_words := words.filter (fun w =>
    !stop_words.contains (lowerStr w) && !pyIsDigit w && !(pyStrip w == ""))
  if area_words.isEmpty then
    let capitalized_words := (pyWords q).filter (fun w => (w.toList.headI).isUpper)
    if capitalized_words.isEmpty then none
    else some (String.intercalate " " capitalized_words)
  else some (pyTitle (String.intercalate " " area_words))

/-- views.py `extract_multiple_areas` (233-252): drop `compare`, split on
`" and "` if present, else on commas, else take the first two
whitespace-separated words; strip and title-case the non-empty fragments. -/
def extract_multiple_areas (query : String) : List String :=
  let q := pyStrip (pyReplace query "compare" "")
  let areas :=
    if pySubstr " and " q then (pySplitOn q " and ").map pyStrip
    else if pySubstr "," q then (pySplitOn q ",").map pyStrip
    else (pyWords q).take 2
  (areas.filter (fun a => !(pyStrip a == ""))).map (fun a => pyTitle (pyStrip a))

/-! ## views.py `analyze_query` dispatch (12-82) -/

/-- Shape of the HTTP response body built by `analyze_query`: a single-area
analysis, a comparison, or an error message. -/
inductive QueryResponse
  | analysis (r : AnalysisResult)
  | comparison (area1 area2 : AnalysisResult) (comparison_summary : String)
  | error (msg : String)
deriving DecidableEq

/-- views.py `analyze_query`: lower-case the raw query; reject the empty
query; dispatch on the `compare` keyword, then on `price growth` /
`price trend`, else single-area analysis defaulting to `Wakad` when no
area could be extracted.  (In the price-growth branch the detailed
breakdown of `views_calculate_price_growth` is appended to the summary
text, which is not carried by `AnalysisResult`.) -/
def analyze_query (df : List DataRow) (rawQuery : String) : QueryResponse :=
  let query := lowerStr rawQuery
  if query = "" then .error "Query cannot be empty"
  else if pySubstr "compare" query then
    let areas := extract_multiple_areas query
    if 2 ≤ areas.length then
      .comparison (analyze_area df (areas.getI 0)) (analyze_area df (areas.getI 1))
        ("Comparison between " ++ areas.getI 0 ++ " and " ++ areas.getI 1)
    else .error "Please specify two areas to compare. Example: \"Compare Wakad and Aundh\""
  else if pySubstr "price growth" query || pySubstr "price trend" query then
    match extract_single_area_from_query query with
    | some area => .analysis (analyze_area df area)
    | none => .error "Please specify an area for price analysis. Example: \"Show price growth for Aundh\""
  else
    match extract_single_area_from_query query with
    | some area => .analysis (analyze_area df area)
    | none => .analysis (analyze_area df "Wakad")

/-! ## Concrete fixtures for witnesses and counterexamples -/

/-- Two rows whose earliest-year price is zero. -/
def zero_first_rows : List DataRow :=
  [⟨2020, "Zed", 0, 50, 1000⟩, ⟨2021, "Zed", 100, 60, 1100⟩]

/-- Dataset whose iteration order puts a merely-containing area name
("Wakad Annex") before an exactly-matching one ("Wakad"). -/
def shadow_df : List DataRow :=
  [⟨2020, "Wakad Annex", 100, 50, 900⟩, ⟨2021, "Wakad Annex", 110, 55, 910⟩,
   ⟨2022, "Wakad Annex", 120, 60, 920⟩, ⟨2023, "Wakad Annex", 130, 65, 930⟩,
   ⟨2020, "Wakad", 200, 70, 1000⟩, ⟨2021, "Wakad", 210, 75, 1010⟩,
   ⟨2022, "Wakad", 220, 80, 1020⟩, ⟨2023, "Wakad", 230, 85, 1030⟩,
   ⟨2020, "Aundh", 300, 60, 1100⟩, ⟨2021, "Aundh", 310, 65, 1110⟩,
   ⟨2022, "Aundh", 320, 70, 1120⟩, ⟨2023, "Aundh", 330, 75, 1130⟩]

/-- Dataset whose "Baner" rows are not in ascending year order. -/
def unordered_df : List DataRow :=
  [⟨2022, "Baner", 120, 60, 1000⟩, ⟨2020, "Baner", 100, 50, 1000⟩,
   ⟨2021, "Baner", 110, 55, 1000⟩,
   ⟨2020, "Filler", 10, 10, 10⟩, ⟨2021, "Filler", 10, 10, 10⟩,
   ⟨2022, "Filler", 10, 10, 10⟩, ⟨2023, "Filler", 10, 10, 10⟩,
   ⟨2024, "Filler", 10, 10, 10⟩, ⟨2025, "Filler", 10, 10, 10⟩,
   ⟨2026, "Filler", 10, 10, 10⟩, ⟨2027, "Filler", 10, 10, 10⟩,
   ⟨2028, "Filler", 10, 10, 10⟩]

/-! ## Helper lemmas -/

/-- The empty pattern is contained in every string (Python `'' in s`). -/
theorem containsSub_nil (l : List Char) : containsSub [] l = true := by
  cases l <;> simp [containsSub, List.isPrefixOf]

theorem mem_firstUniquesAux {a : String} : ∀ {seen l : List String},
    a ∈ firstUniquesAux seen l ↔ a ∈ l ∧ a ∉ seen := by
  intro seen l
  induction l generalizing seen with
  | nil => simp [firstUniquesAux]
  | cons x xs ih =>
    simp only [firstUniquesAux]
    split
    · next hx =>
      rw [ih, List.mem_cons]
      constructor
      · rintro ⟨h1, h2⟩
        exact ⟨Or.inr h1, h2⟩
      · rintro ⟨h1 | h1, h2⟩
        · exact absurd (h1 ▸ hx) h2
        · exact ⟨h1, h2⟩
    · next hx =>
      simp only [List.mem_cons, ih]
      constructor
      · rintro (rfl | ⟨h1, h2⟩)
        · exact ⟨Or.inl rfl, hx⟩
        · exact ⟨Or.inr h1, fun hs => h2 (Or.inr hs)⟩
      · rintro ⟨rfl | h1, h2⟩
        · exact Or.inl rfl
        · by_cases hax : a = x
          · exact Or.inl hax
          · exact Or.inr ⟨h1, by simp [List.mem_cons, hax, h2]⟩

theorem filter_head_split {α : Type} {p : α → Bool} :
    ∀ {l : List α} {m : α} {rest : List α}, l.filter p = m :: rest →
      p m = true ∧ ∃ pre post, l = pre ++ m :: post ∧ ∀ a ∈ pre, p a = false := by
  intro l
  induction l with
  | nil => intro m rest h; simp [List.filter] at h
  | cons x xs ih =>
    intro m rest h
    rw [List.filter_cons] at h
    by_cases hx : p x = true
    · rw [if_pos hx] at h
      injection h with h1 h2
      subst h1
      exact ⟨hx, [], xs, rfl, by simp⟩
    · rw [if_neg hx] at h
      obtain ⟨hm, pre, post, heq, hpre⟩ := ih h
      refine ⟨hm, x :: pre, post, by rw [heq]; rfl, ?_⟩
      intro a ha
      rcases List.mem_cons.mp ha with rfl | h'
      · exact Bool.eq_false_iff.mpr (fun hc => hx hc)
      · exact hpre a h'

/-- Characterization of the `NotFound` outcome of the embedded resolver. -/
theorem resolve_area_eq_notFound {df : List DataRow} {frag : String} :
    resolve_area df frag = .NotFound ↔
      df.length ≤ 10 ∨ ∀ r ∈ df, pySubstr (lowerStr frag) (lowerStr r.area) = false := by
  unfold resolve_area
  by_cases hlen : df.length ≤ 10 ∨ df = []
  · rw [if_pos hlen]
    have : df.length ≤ 10 := by
      rcases hlen with h | rfl
      · exact h
      · simp
    simp [this]
  · rw [if_neg hlen]
    push_neg at hlen
    cases hfil : (firstUniquesAux [] (df.map (·.area))).filter
        (fun a => pySubstr (lowerStr frag) (lowerStr a)) with
    | nil =>
      simp only [hfil]
      constructor
      · intro _
        refine Or.inr fun r hr => ?_
        have hmem : r.area ∈ firstUniquesAux [] (df.map (·.area)) :=
          mem_firstUniquesAux.mpr ⟨List.mem_map_of_mem _ hr, by simp⟩
        have := List.filter_eq_nil_iff.mp hfil _ hmem
        simpa using this
      · intro _; trivial
    | cons m rest =>
      simp only [hfil]
      constructor
      · intro hc; exact absurd hc (by simp)
      · rintro (h | h)
        · exact absurd h (by omega)
        · obtain ⟨hm, _, _, _, _⟩ := filter_head_split hfil
          have hmf : m ∈ (firstUniquesAux [] (df.map (·.area))).filter
              (fun a => pySubstr (lowerStr frag) (lowerStr a)) := by
            rw [hfil]; exact List.mem_cons_self m rest
          obtain ⟨hmm, -⟩ := mem_firstUniquesAux.mp (List.mem_filter.mp hmf).1
          obtain ⟨r, hr, hra⟩ := List.mem_map.mp hmm
          have := h r hr
          rw [hra] at this
          rw [this] at hm
          cases hm

/-- Every branch of `analyze_area` returns the common dict shape. -/
theorem analyze_area_shape (df : List DataRow) (name : String) :
    ∃ rows a ds, analyze_area df name = mk_result rows a ds := by
  unfold analyze_area
  cases resolve_area df name with
  | NotFound => exact ⟨sample_rows name, name, "Sample Data", rfl⟩
  | Found m =>
    dsimp only
    split
    · exact ⟨sample_rows name, name, "Sample Data", rfl⟩
    · exact ⟨_, _, _, rfl⟩

/-- The rows produced by `sample_rows` for any requested name: always 4
rows, carrying the literal name, over years 2020-2023. -/
theorem sample_rows_spec (name : String) :
    (sample_rows name).length = 4 ∧
    (sample_rows name).map (·.area) = [name, name, name, name] ∧
    (sample_rows name).map (·.year) = [2020, 2021, 2022, 2023] := by
  by_cases h1 : name = "Wakad"
  · subst h1; decide
  by_cases h2 : name = "Aundh"
  · subst h2; decide
  by_cases h3 : name = "Akurdi"
  · subst h3; decide
  have hfil : sample_data.filter (fun r => r.area == name) = [] := by
    rw [List.filter_eq_nil_iff]
    intro r hr
    fin_cases hr <;> simp [beq_iff_eq] <;>
      first
        | exact fun e => h1 e.symm
        | exact fun e => h2 e.symm
        | exact fun e => h3 e.symm
  unfold sample_rows
  rw [hfil]
  simp [synth_rows]

theorem foldl_max_map_mul {m : ℚ} (hm : 0 ≤ m) :
    ∀ (xs : List ℚ) (a : ℚ),
      (xs.map (fun d => d * m)).foldl max (a * m) = (xs.foldl max a) * m := by
  intro xs
  induction xs with
  | nil => intro a; rfl
  | cons x xs ih =>
    intro a
    simp only [List.map_cons, List.foldl_cons]
    rw [← max_mul_of_nonneg _ _ hm, ih]

/-- `colMax` commutes with rescaling by the positive factor `100 / m`. -/
theorem colMax_map_rescale {l : List ℚ} (hl : l ≠ []) {m : ℚ} (hm : 0 < m) :
    colMax (l.map (fun d => d / m * 100)) = colMax l / m * 100 := by
  have hfac : (0:ℚ) ≤ 100 / m := by positivity
  have hfun : (fun d : ℚ => d / m * 100) = fun d : ℚ => d * (100 / m) := by
    funext d; ring
  cases l with
  | nil => exact absurd rfl hl
  | cons x xs =>
    rw [hfun]
    have h2 : colMax ((x :: xs).map fun d => d * (100 / m)) = colMax (x :: xs) * (100 / m) := by
      simpa [colMax] using foldl_max_map_mul hfac xs x
    rw [h2]
    ring


/-- C1: for a row set of at least 2 rows already sorted ascending by year
whose first price is non-zero, `calculate_price_growth` returns exactly
`((last.price - first.price) / first.price) * 100`; and any row set of
fewer than 2 rows yields `0`. -/
theorem C1_price_growth_formula (data short : List DataRow) (h2 : 2 ≤ data.length)
    (hs : List.Sorted yearLE data) (h0 : data.headI.price ≠ 0)
    (hshort : short.length < 2) :
    calculate_price_growth data =
      some ((data.getLastI.price - data.headI.price) / data.headI.price * 100) ∧
    calculate_price_growth short = some 0 := by
  constructor
  · unfold calculate_price_growth
    rw [if_neg (by omega)]
    have hsort : sortByYear data = data := hs.insertionSort_eq
    rw [hsort]
    simp only [pyDiv, if_neg h0, Option.map_some']
  · unfold calculate_price_growth
    rw [if_pos hshort]

/-- Witness for C1 at a concrete sorted two-row set and a one-row set. -/
theorem C1_witness :
    calculate_price_growth
      [⟨2020, "Wakad", 100, 75, 1000⟩, ⟨2021, "Wakad", 130, 80, 1100⟩] = some 30 ∧
    calculate_price_growth [⟨2020, "Wakad", 100, 75, 1000⟩] = some 0 := by
  have h := C1_price_growth_formula
    [⟨2020, "Wakad", 100, 75, 1000⟩, ⟨2021, "Wakad", 130, 80, 1100⟩]
    [⟨2020, "Wakad", 100, 75, 1000⟩]
    (by decide)
    (by simp [List.Sorted, List.pairwise_cons, yearLE])
    (by norm_num)
    (by decide)
  refine ⟨?_, h.2⟩
  rw [h.1]
  norm_num [List.getLastI, List.headI]

/-- C2 counterexample: a two-row set whose earliest-year price is `0`.
The division by the first price IS performed with a zero divisor — the
computation fails (`none`) instead of producing the claimed `0` — in both
the utils.py growth computation and the views.py detailed breakdown. -/
theorem C2_counterexample :
    calculate_price_growth zero_first_rows = none ∧
    calculate_price_growth zero_first_rows ≠ some 0 ∧
    views_calculate_price_growth zero_first_rows = none := by
  refine ⟨?_, ?_, ?_⟩ <;> decide

/-- C2 amended: only the under-2-rows case is guarded; with ≥ 2 rows and a
zero first price both computations perform the division with a zero divisor
and fail. -/
theorem C2_amended (data : List DataRow) (h2 : 2 ≤ data.length)
    (h0 : (sortByYear data).headI.price = 0) :
    calculate_price_growth data = none ∧ views_calculate_price_growth data = none := by
  constructor
  · unfold calculate_price_growth
    rw [if_neg (by omega)]
    simp [pyDiv, h0]
  · unfold views_calculate_price_growth
    rw [if_neg (by omega)]
    simp [pyDiv, h0]

/-- Witness for C2 amended at a concrete zero-first-price row set. -/
theorem C2_witness :
    calculate_price_growth [⟨2019, "Nil", 0, 10, 500⟩, ⟨2022, "Nil", 50, 20, 600⟩] = none ∧
    views_calculate_price_growth
      [⟨2019, "Nil", 0, 10, 500⟩, ⟨2022, "Nil", 50, 20, 600⟩] = none :=
  C2_amended [⟨2019, "Nil", 0, 10, 500⟩, ⟨2022, "Nil", 50, 20, 600⟩] (by decide) (by decide)

/-- C9: the summary's price-trend label is "significant growth" exactly
when growth > 15, "moderate growth" exactly when 5 < growth ≤ 15, "stable"
otherwise; the demand label is "high" exactly when demand > 80, "moderate"
exactly when 60 < demand ≤ 80, "low" otherwise. -/
theorem C9_summary_labels (g d : ℚ) :
    (price_trend_label g = "significant growth" ↔ 15 < g) ∧
    (price_trend_label g = "moderate growth" ↔ 5 < g ∧ g ≤ 15) ∧
    (price_trend_label g = "stable" ↔ g ≤ 5) ∧
    (demand_level_label d = "high" ↔ 80 < d) ∧
    (demand_level_label d = "moderate" ↔ 60 < d ∧ d ≤ 80) ∧
    (demand_level_label d = "low" ↔ d ≤ 60) := by
  unfold price_trend_label demand_level_label
  split_ifs with h1 h2 h3 h4 <;>
    refine ⟨?_, ?_, ?_, ?_, ?_, ?_⟩ <;>
    simp_all <;>
    linarith

/-- Witness for C9 at concrete growth and demand values. -/
theorem C9_witness :
    price_trend_label 20 = "significant growth" ∧ demand_level_label 70 = "moderate" := by
  exact ⟨((C9_summary_labels 20 70).1).mpr (by norm_num),
    ((C9_summary_labels 20 70).2.2.2.2.1).mpr (by norm_num)⟩

/-- C10: demand cleaning rescales the whole column by `100 / max` exactly
when the column maximum exceeds 100, making the new maximum exactly 100;
otherwise the column is unchanged. -/
theorem C10_demand_rescale (demand : List ℚ) (hne : demand ≠ []) :
    (100 < colMax demand →
      normalize_demand demand = demand.map (fun d => d / colMax demand * 100) ∧
      colMax (normalize_demand demand) = 100) ∧
    (colMax demand ≤ 100 → normalize_demand demand = demand) := by
  constructor
  · intro h
    have hm : (0:ℚ) < colMax demand := lt_trans (by norm_num) h
    have h1 : normalize_demand demand = demand.map (fun d => d / colMax demand * 100) := by
      unfold normalize_demand
      rw [if_pos h]
    refine ⟨h1, ?_⟩
    rw [h1, colMax_map_rescale hne hm, div_self (ne_of_gt hm), one_mul]
  · intro h
    unfold normalize_demand
    rw [if_neg (not_lt.mpr h)]

/-- Witness for C10 at a concrete column with maximum 200 > 100. -/
theorem C10_witness :
    normalize_demand [50, 200] = [25, 100] ∧
    colMax (normalize_demand [50, 200]) = 100 := by
  have hmax : colMax [(50:ℚ), 200] = 200 := by
    norm_num [colMax, max_def]
  have h := (C10_demand_rescale [50, 200] (by simp)).1 (by rw [hmax]; norm_num)
  refine ⟨?_, h.2⟩
  rw [h.1, hmax]
  norm_num

/-- C3 counterexample: an unmatched area name does produce the sample
fallback, but its `data_source` is the literal `"Sample Data"`, not the
claimed `"Sample"`. -/
theorem C3_counterexample :
    (analyze_area sample_data "Xyz").data_source = "Sample Data" ∧
    (analyze_area sample_data "Xyz").data_source ≠ "Sample" := by
  exact ⟨by decide, by decide⟩

/-- C3 amended: for any requested name matching no area of the loaded
dataset, `analyze_area` returns the sample fallback: `data_source =
"Sample Data"` and a 4-row table for the literal requested name over years
2020-2023. -/
theorem C3_sample_fallback (df : List DataRow) (name : String)
    (h : ∀ r ∈ df, pySubstr (lowerStr name) (lowerStr r.area) = false) :
    (analyze_area df name).data_source = "Sample Data" ∧
    (analyze_area df name).table_data.length = 4 ∧
    (analyze_area df name).table_data.map (·.area) = [name, name, name, name] ∧
    (analyze_area df name).table_data.map (·.year) = [2020, 2021, 2022, 2023] ∧
    (analyze_area df name).area = name := by
  have hres : resolve_area df name = .NotFound := resolve_area_eq_notFound.mpr (Or.inr h)
  have hA : analyze_area df name = generate_sample_analysis name := by
    unfold analyze_area
    rw [hres]
  rw [hA]
  obtain ⟨hl, ha, hy⟩ := sample_rows_spec name
  exact ⟨rfl, hl, ha, hy, rfl⟩

/-- Witness for C3 amended at a concrete unmatched name. -/
theorem C3_witness :
    (analyze_area sample_data "Pimpri").data_source = "Sample Data" ∧
    (analyze_area sample_data "Pimpri").table_data.length = 4 ∧
    (analyze_area sample_data "Pimpri").table_data.map (·.area) =
      ["Pimpri", "Pimpri", "Pimpri", "Pimpri"] ∧
    (analyze_area sample_data "Pimpri").table_data.map (·.year) =
      [2020, 2021, 2022, 2023] ∧
    (analyze_area sample_data "Pimpri").area = "Pimpri" :=
  C3_sample_fallback sample_data "Pimpri" (by decide)

/-- C4 counterexample: exact case-insensitive equality is NOT preferred —
with "Wakad" present in the dataset, resolving the fragment "wakad" picks
the earlier merely-containing "Wakad Annex". -/
theorem C4_counterexample :
    resolve_area shadow_df "wakad" = .Found "Wakad Annex" ∧
    (shadow_df.map (·.area)).contains "Wakad" = true ∧
    lowerStr "Wakad" = lowerStr "wakad" ∧
    "Wakad Annex" ≠ "Wakad" := by
  exact ⟨by decide, by decide, by decide, by decide⟩

/-- C4 amended: resolution picks the first area in dataset iteration order
whose lower-cased name contains the lower-cased fragment, with no
exact-equality preference; `NotFound` holds exactly when the dataset has at
most 10 rows or no area contains the fragment; the empty fragment is
contained in every area name, so on a usable dataset it never yields
`NotFound`. -/
theorem C4_first_containing_match (df : List DataRow) (frag : String) :
    (resolve_area df frag = .NotFound ↔
      df.length ≤ 10 ∨ ∀ r ∈ df, pySubstr (lowerStr frag) (lowerStr r.area) = false) ∧
    (∀ m, resolve_area df frag = .Found m →
      pySubstr (lowerStr frag) (lowerStr m) = true ∧
      ∃ pre post, firstUniquesAux [] (df.map (·.area)) = pre ++ m :: post ∧
        ∀ a ∈ pre, pySubstr (lowerStr frag) (lowerStr a) = false) ∧
    (frag = "" → 10 < df.length → resolve_area df frag ≠ .NotFound) := by
  refine ⟨resolve_area_eq_notFound, ?_, ?_⟩
  · intro m hm
    unfold resolve_area at hm
    by_cases hlen : df.length ≤ 10 ∨ df = []
    · rw [if_pos hlen] at hm; cases hm
    · rw [if_neg hlen] at hm
      dsimp only at hm
      cases hfil : (firstUniquesAux [] (df.map (·.area))).filter
          (fun a => pySubstr (lowerStr frag) (lowerStr a)) with
      | nil => rw [hfil] at hm; cases hm
      | cons m0 rest =>
        rw [hfil] at hm
        simp only [MatchResult.Found.injEq] at hm
        subst hm
        obtain ⟨hp, pre, post, heq, hpre⟩ := filter_head_split hfil
        exact ⟨hp, pre, post, heq, hpre⟩
  · rintro rfl hlen
    obtain ⟨r, rs, rfl⟩ : ∃ r rs, df = r :: rs := by
      cases df with
      | nil => simp at hlen
      | cons r rs => exact ⟨r, rs, rfl⟩
    have hne : ¬((r :: rs).length ≤ 10 ∨ r :: rs = []) := by
      rintro (h | h)
      · omega
      · cases h
    unfold resolve_area
    rw [if_neg hne]
    have hp : ∀ a : String, pySubstr (lowerStr "") (lowerStr a) = true := by
      intro a
      exact containsSub_nil _
    simp only [List.map_cons, firstUniquesAux, List.not_mem_nil, if_neg, ite_false,
      List.filter_cons, hp, if_true]
    intro hcontr
    cases hcontr

/-- Witness for C4 amended: the `NotFound` characterization applied at a
fragment contained in no area of the sample dataset. -/
theorem C4_witness : resolve_area sample_data "xyz" = .NotFound :=
  (C4_first_containing_match sample_data "xyz").1.mpr (Or.inr (by decide))

/-- C5: comparison extraction — removing `compare`, splitting on the
literal `" and "` when present, title-casing the non-empty fragments; the
lowered query "compare Wakad and Aundh" yields `["Wakad", "Aundh"]` and is
dispatched as a comparison; fewer than two fragments surfaces the
extraction-failure error to the caller. -/
theorem C5_compare_extraction (df : List DataRow) :
    extract_multiple_areas (lowerStr "compare Wakad and Aundh") = ["Wakad", "Aundh"] ∧
    analyze_query df "compare Wakad and Aundh" =
      .comparison (analyze_area df "Wakad") (analyze_area df "Aundh")
        "Comparison between Wakad and Aundh" ∧
    (∀ q, pySubstr "compare" (lowerStr q) = true →
      (extract_multiple_areas (lowerStr q)).length < 2 →
      analyze_query df q =
        .error "Please specify two areas to compare. Example: \"Compare Wakad and Aundh\"") ∧
    (∀ q, pySubstr " and " (pyStrip (pyReplace q "compare" "")) = true →
      extract_multiple_areas q =
        (((pySplitOn (pyStrip (pyReplace q "compare" "")) " and ").map pyStrip).filter
          (fun a => !(pyStrip a == ""))).map (fun a => pyTitle (pyStrip a))) := by
  refine ⟨by decide, by rfl, ?_, ?_⟩
  · intro q hq hlen
    have hne : ¬ lowerStr q = "" := by
      intro he
      rw [he] at hq
      exact absurd hq (by decide)
    simp only [analyze_query]
    rw [if_neg hne, if_pos hq, if_neg (by omega)]
  · intro q hand
    simp only [extract_multiple_areas]
    rw [if_pos hand]

/-- Witness for C5: a compare query with a single fragment is surfaced as
the extraction-failure error. -/
theorem C5_witness :
    analyze_query sample_data "compare wakad" =
      .error "Please specify two areas to compare. Example: \"Compare Wakad and Aundh\"" :=
  (C5_compare_extraction sample_data).2.2.1 "compare wakad" (by decide) (by decide)

/-- C6 counterexample: the empty query IS rejected with an error response
("Query cannot be empty", HTTP 400), not answered with the Wakad default. -/
theorem C6_counterexample :
    analyze_query sample_data "" = .error "Query cannot be empty" := by decide

/-- C6 amended: the empty query returns the "Query cannot be empty" error;
the default to the fixed fallback area "Wakad" applies only to non-empty
queries from which no area can be extracted (such as "analyze"). -/
theorem C6_empty_query (df : List DataRow) :
    analyze_query df "" = .error "Query cannot be empty" ∧
    analyze_query df "analyze" = .analysis (analyze_area df "Wakad") :=
  ⟨rfl, rfl⟩

/-- C7 counterexample: `table_data` is the area's rows in dataset order,
NOT re-sorted — with "Baner" rows stored as 2022, 2020, 2021 the chart is
ascending but the table is not. -/
theorem C7_counterexample :
    (analyze_area unordered_df "baner").table_data.map (·.year) = [2022, 2020, 2021] ∧
    ¬ List.Sorted (· ≤ ·) ((analyze_area unordered_df "baner").table_data.map (·.year)) ∧
    (analyze_area unordered_df "baner").chart_data.price_labels = [2020, 2021, 2022] := by
  refine ⟨by decide, ?_, by decide⟩
  intro hs
  rw [(by decide : (analyze_area unordered_df "baner").table_data.map (·.year) =
    [2022, 2020, 2021])] at hs
  have := List.rel_of_sorted_cons hs 2020 (by simp)
  omega

/-- C7 amended: the chart series are the year-sorted series (ascending
labels, demand labels equal to price labels) computed from `table_data`,
and the table rows are a permutation of that order — `table_data` itself
stays in dataset row order. -/
theorem C7_chart_sorted_table_unchanged (df : List DataRow) (name : String) :
    (analyze_area df name).chart_data = prepare_chart_data (analyze_area df name).table_data ∧
    List.Sorted (· ≤ ·) (analyze_area df name).chart_data.price_labels ∧
    (analyze_area df name).chart_data.demand_labels =
      (analyze_area df name).chart_data.price_labels ∧
    ((analyze_area df name).chart_data.price_labels).Perm
      ((analyze_area df name).table_data.map (·.year)) := by
  obtain ⟨rows, a, ds, hshape⟩ := analyze_area_shape df name
  rw [hshape]
  refine ⟨rfl, ?_, rfl, ?_⟩
  · exact List.Pairwise.map _ (fun x y h => h) (List.sorted_insertionSort yearLE rows)
  · exact (List.perm_insertionSort yearLE rows).map _

/-- C8 counterexample: the token "forest" is NOT preserved — the
substring-wise removal of the stop word "for" mangles it to "Est". -/
theorem C8_counterexample :
    extract_single_area_from_query "forest" = some "Est" ∧
    extract_single_area_from_query "forest" ≠ some "Forest" := by
  exact ⟨by decide, by decide⟩

/-- C8 amended: the first stop-word list is removed substring-wise (a token
containing one of its words is mangled: "forest" → "Est"), while the second
stop-word set is stripped token-by-token (a token merely containing one is
preserved: "thesis" → "Thesis"); tokens containing no stop word pass
through intact ("kharadi" → "Kharadi"). -/
theorem C8_substring_vs_token_stripping :
    extract_single_area_from_query "forest" = some "Est" ∧
    extract_single_area_from_query "thesis" = some "Thesis" ∧
    extract_single_area_from_query "kharadi" = some "Kharadi" := by
  exact ⟨by decide, by decide, by decide⟩

end RealEstate

